import Mathlib

/-
Verification of the TLS 1.3 hybrid benchmark harness
(`src/tls_benchmark/measure_tls.py`, class `TLSBenchmark`).

The embedding models the measurement-and-aggregation pipeline:
  * `measure_latency`  : one external handshake attempt (timer readings and
    subprocess outcome are the nondeterministic inputs, passed explicitly);
  * `collectLatencies` : the sampling loop of one pass inside `run_benchmark`
    (successful latencies in arrival order, failures skipped);
  * `run_benchmark`    : both passes, truncation of the two latency columns to
    the common minimum length, and the RuntimeError raised when that minimum
    is zero;
  * `analyze_results`  : the statistical summary (rounded means, delta
    percentage via numpy float division, sample size), the pandas describe
    table, and the metadata block.

Latency values are rationals: Python timer readings (`time.perf_counter`) are
finite floats, so measured differences are finite; real-number arithmetic is
modelled exactly in the rationals.  The one place where IEEE special values
are observable is the delta-percent division, whose divisor can be zero: there
the numpy semantics (signed infinity, NaN) is modelled by the `EFloat` type.
Sample standard deviation is recorded as its square (the ddof=1 variance) to
stay inside the rationals; this loses no information for the claims below.
-/

namespace TLSBench

/-- Outcome of one invocation of the external `openssl s_client` subprocess,
as observed by `TLSBenchmark.measure_latency`: either the process completed
with exit status 0 (carrying the two `time.perf_counter` readings taken
immediately before and after the `subprocess.run` call), or it exited with a
non-zero status (`subprocess.CalledProcessError`, since `check=True`), or it
exceeded the timeout (`subprocess.TimeoutExpired`). -/
inductive InvokeOutcome where
  | completed (startTime endTime : ℚ)
  | calledProcessError
  | timeoutExpired
deriving DecidableEq, Repr

/-- `TLSBenchmark.measure_latency`: on a completed run it computes
`latency_ms = (end_time - start_time) * 1000` and returns it only when
`latency_ms >= 0`, otherwise `None`; on `CalledProcessError` or
`TimeoutExpired` it logs a warning and returns `None`. -/
def measure_latency : InvokeOutcome → Option ℚ
  | .completed startTime endTime =>
      let latency_ms := (endTime - startTime) * 1000
      if 0 ≤ latency_ms then some latency_ms else none
  | .calledProcessError => none
  | .timeoutExpired => none

/-- The sampling loop of one pass inside `TLSBenchmark.run_benchmark`:
`for _ in range(iterations): latency = measure_latency(...); if latency is
not None: latencies.append(latency)`.  The list argument carries one
subprocess outcome per iteration, in iteration order; the result is the list
of successful latencies in arrival order. -/
def collectLatencies (outcomes : List InvokeOutcome) : List ℚ :=
  outcomes.filterMap measure_latency

/-- The run-level error of `TLSBenchmark.run_benchmark`: the
`RuntimeError("Aucune mesure valide obtenue")` raised when the truncated
common length is zero (the spec names this condition `InsufficientSamples`). -/
inductive BenchError where
  | insufficientSamples
deriving DecidableEq, Repr

/-- The pandas DataFrame built at the end of `TLSBenchmark.run_benchmark`:
columns `classic_ms` and `hybrid_ms` truncated to the common minimum length,
plus a constant `timestamp` column. -/
structure BenchmarkFrame where
  classic_ms : List ℚ
  hybrid_ms : List ℚ
  timestamp : List String
deriving DecidableEq, Repr

/-- `TLSBenchmark.run_benchmark`: runs the classic pass, sleeps, runs the
hybrid pass, then truncates both latency lists to
`min_len = min(len(classic_latencies), len(hybrid_latencies))`, raising
`RuntimeError` when `min_len == 0` and otherwise building the DataFrame from
the `[:min_len]` slices.  The outcome lists carry the per-iteration
subprocess behaviour of each pass; `now` is the `datetime.now().isoformat()`
value used for the timestamp column. -/
def run_benchmark (classicOutcomes hybridOutcomes : List InvokeOutcome)
    (now : String) : Except BenchError BenchmarkFrame :=
  let classic_latencies := collectLatencies classicOutcomes
  let hybrid_latencies := collectLatencies hybridOutcomes
  let min_len := min classic_latencies.length hybrid_latencies.length
  if min_len = 0 then
    .error .insufficientSamples
  else
    .ok { classic_ms := classic_latencies.take min_len,
          hybrid_ms := hybrid_latencies.take min_len,
          timestamp := List.replicate min_len now }

/-- A float-valued quantity that can be an IEEE special value.  Used for the
delta-percent division (numpy float64 division by zero yields a signed
infinity or NaN together with a RuntimeWarning, it does not raise) and for
the pandas sample standard deviation (NaN when fewer than two samples). -/
inductive EFloat where
  | fin (q : ℚ)
  | posInf
  | negInf
  | nan
deriving DecidableEq, Repr

/-- numpy float64 division `x / y`: exact rational quotient when the divisor
is nonzero; at divisor zero a signed infinity (or NaN for `0/0`), as numpy
produces (with a RuntimeWarning, never an exception). -/
def npDiv (x y : ℚ) : EFloat :=
  if y = 0 then
    if 0 < x then .posInf
    else if x < 0 then .negInf
    else .nan
  else .fin (x / y)

/-- Round a rational to the nearest integer, ties to even — the rounding rule
of Python `round`. -/
def roundHalfEven (q : ℚ) : ℤ :=
  let f := ⌊q⌋
  let r := q - f
  if r < 1 / 2 then f
  else if 1 / 2 < r then f + 1
  else if f % 2 = 0 then f else f + 1

/-- Python `round(x, 2)`: round to two decimal places, ties to even. -/
def round2 (q : ℚ) : ℚ :=
  (roundHalfEven (q * 100) : ℚ) / 100

/-- `round(x, 2)` on a possibly special float: infinities and NaN pass
through unchanged. -/
def round2E : EFloat → EFloat
  | .fin q => .fin (round2 q)
  | .posInf => .posInf
  | .negInf => .negInf
  | .nan => .nan

/-- `pandas.Series.mean`: sum divided by count.  The model is used on
non-empty columns (an empty column would give NaN in pandas; every claim
below concerns non-empty data). -/
def seriesMean (xs : List ℚ) : ℚ :=
  xs.sum / xs.length

/-- pandas linear-interpolation quantile of a column at fraction `p`:
with the samples sorted ascending, the value at fractional index
`p * (n - 1)`, interpolating linearly between the neighbouring samples. -/
def quantileLinear (xs : List ℚ) (p : ℚ) : ℚ :=
  let s := xs.insertionSort (· ≤ ·)
  let h := p * ((s.length : ℚ) - 1)
  let i := (⌊h⌋).toNat
  let g := h - ⌊h⌋
  match s[i]?, s[i + 1]? with
  | some lo, some hi => lo + g * (hi - lo)
  | some lo, none => lo
  | none, _ => 0

/-- pandas ddof=1 sample variance: the square of the `std` row of
`describe`.  NaN when fewer than two samples, as pandas reports. -/
def sampleVar (xs : List ℚ) : EFloat :=
  if xs.length ≤ 1 then .nan
  else .fin ((xs.map (fun x => (x - seriesMean xs) ^ 2)).sum / ((xs.length : ℚ) - 1))

/-- Smallest element of a column (0 as a junk value on an empty column,
which never occurs in the claims). -/
def colMin (xs : List ℚ) : ℚ :=
  match xs with
  | [] => 0
  | x :: t => t.foldl min x

/-- Largest element of a column (0 as a junk value on an empty column). -/
def colMax (xs : List ℚ) : ℚ :=
  match xs with
  | [] => 0
  | x :: t => t.foldl max x

/-- One column of `df.describe(percentiles=[0.5, 0.95, 0.99])`: count, mean,
std (recorded as its square `var_ddof1`), min, the 50th, 95th and 99th
percentiles, and max. -/
structure ColumnStats where
  count : ℕ
  mean : ℚ
  var_ddof1 : EFloat
  min : ℚ
  p50 : ℚ
  p95 : ℚ
  p99 : ℚ
  max : ℚ
deriving DecidableEq, Repr

/-- `describe` of one latency column. -/
def describeColumn (xs : List ℚ) : ColumnStats :=
  { count := xs.length,
    mean := seriesMean xs,
    var_ddof1 := sampleVar xs,
    min := colMin xs,
    p50 := quantileLinear xs (1 / 2),
    p95 := quantileLinear xs (95 / 100),
    p99 := quantileLinear xs (99 / 100),
    max := colMax xs }

/-- The `summary` block of `TLSBenchmark.analyze_results`: means rounded to
two decimals, `delta_percent = round(100 * (mean_hybrid - mean_classic) /
mean_classic, 2)`, and `sample_size = len(df)`. -/
structure Summary where
  classic_mean_ms : ℚ
  hybrid_mean_ms : ℚ
  delta_percent : EFloat
  sample_size : ℕ
deriving DecidableEq, Repr

/-- The `metadata` block of `TLSBenchmark.analyze_results`: the
`datetime.now().isoformat()` value taken inside the call, the target
address and the OpenSSL path. -/
structure Metadata where
  timestamp : String
  target : String
  openssl_path : String
deriving DecidableEq, Repr

/-- The full dictionary returned by `TLSBenchmark.analyze_results`. -/
structure Analysis where
  summary : Summary
  statistics : ColumnStats × ColumnStats
  metadata : Metadata
deriving DecidableEq, Repr

/-- `TLSBenchmark.analyze_results`: computes the two column means, the delta
percentage `100 * (mean_hybrid - mean_classic) / mean_classic` (numpy float
division, so a zero classic mean yields a signed infinity or NaN rather than
an error), the describe table, and the metadata.  `now` is the
`datetime.now()` reading of this call; the two latency lists are the
`classic_ms` and `hybrid_ms` columns of the DataFrame (equal length by
DataFrame construction, `sample_size = len(df)` is the row count). -/
def analyze_results (classic hybrid : List ℚ)
    (now target openssl_path : String) : Analysis :=
  let mean_classic := seriesMean classic
  let mean_hybrid := seriesMean hybrid
  let delta_percent := npDiv (100 * (mean_hybrid - mean_classic)) mean_classic
  { summary := { classic_mean_ms := round2 mean_classic,
                 hybrid_mean_ms := round2 mean_hybrid,
                 delta_percent := round2E delta_percent,
                 sample_size := classic.length },
    statistics := (describeColumn classic, describeColumn hybrid),
    metadata := { timestamp := now, target := target, openssl_path := openssl_path } }

/-- The pipeline of `main`: `df = run_benchmark(...)` followed by
`analysis = analyze_results(df)`.  `now` is the timestamp of the DataFrame,
`now2` the later timestamp taken inside `analyze_results`. -/
def run_and_analyze (classicOutcomes hybridOutcomes : List InvokeOutcome)
    (now now2 target openssl_path : String) : Except BenchError Analysis :=
  match run_benchmark classicOutcomes hybridOutcomes now with
  | .error e => .error e
  | .ok df => .ok (analyze_results df.classic_ms df.hybrid_ms now2 target openssl_path)

/-- One observable step of `TLSBenchmark.run_benchmark`: a classic-pass
handshake attempt (with its iteration index), the fixed `time.sleep(2)`
cooldown between the passes, or a hybrid-pass attempt. -/
inductive RunEvent where
  | classicAttempt (i : ℕ)
  | cooldownSleep
  | hybridAttempt (i : ℕ)
deriving DecidableEq, Repr

/-- The event order of `TLSBenchmark.run_benchmark`, read off its statement
sequence: the classic loop of `iterations` attempts, then `time.sleep(2)`,
then the hybrid loop of `iterations` attempts. -/
def run_benchmark_trace (iterations : ℕ) : List RunEvent :=
  (List.range iterations).map RunEvent.classicAttempt
    ++ RunEvent.cooldownSleep :: (List.range iterations).map RunEvent.hybridAttempt

end TLSBench

namespace TLSBench

/-- C1: the delta percentage is `100 * (hybrid mean - baseline mean) /
baseline mean` (rounded to two decimals, as `analyze_results` reports it)
whenever the baseline mean is nonzero; and on baseline latencies
`[10, 12, 11]` and hybrid latencies `[15, 16, 14]` the summary reports
baseline mean 11, hybrid mean 15 and `delta_percent = 36.36` (the rounding
of +36.3636…). -/
theorem C1_delta_percent_formula :
    (∀ (classic hybrid : List ℚ) (now target op : String),
        seriesMean classic ≠ 0 →
        (analyze_results classic hybrid now target op).summary.delta_percent
          = .fin (round2 (100 * (seriesMean hybrid - seriesMean classic)
              / seriesMean classic)))
    ∧ (analyze_results [10, 12, 11] [15, 16, 14] "t" "tg" "op").summary
        = { classic_mean_ms := 11, hybrid_mean_ms := 15,
            delta_percent := .fin (909 / 25), sample_size := 3 } := by
  constructor
  · intro classic hybrid now target op h
    simp only [analyze_results, npDiv, if_neg h, round2E]
  · simp only [analyze_results, npDiv, seriesMean, round2E, Summary.mk.injEq]
    norm_num [round2, roundHalfEven]

/-- C1 witness: the general formula instantiated at baseline `[2, 4]`
(mean 3) and hybrid `[3, 3]` (mean 3), giving `delta_percent = 0`. -/
theorem C1_delta_percent_formula_witness :
    (analyze_results [2, 4] [3, 3] "u" "tg" "op").summary.delta_percent
      = .fin (round2 (100 * (seriesMean [3, 3] - seriesMean [2, 4])
          / seriesMean [2, 4])) :=
  C1_delta_percent_formula.1 [2, 4] [3, 3] "u" "tg" "op" (by norm_num [seriesMean])

end TLSBench

namespace TLSBench

/-- numpy division of a positive value by zero is a positive infinity. -/
lemma npDiv_zero_pos {x : ℚ} (hx : 0 < x) : npDiv x 0 = .posInf := by
  simp [npDiv, hx]

/-- numpy division of a negative value by zero is a negative infinity. -/
lemma npDiv_zero_neg {x : ℚ} (hx : x < 0) : npDiv x 0 = .negInf := by
  simp [npDiv, hx, asymm hx]

/-- numpy `0 / 0` is NaN. -/
lemma npDiv_zero_zero : npDiv (0 : ℚ) 0 = .nan := by
  simp [npDiv]

/-- C2 counterexample: `analyze_results` has no zero-baseline guard.  With
every classic attempt measuring 0 ms and every hybrid attempt measuring
1 ms, the full pipeline completes without any error and reports
`delta_percent = +inf` (numpy float division by the zero classic mean),
where the claim demands a `DegenerateBaseline` failure instead of an
infinite delta. -/
theorem C2_degenerate_baseline_counterexample :
    (run_and_analyze
        [.completed 0 0, .completed 0 0, .completed 0 0]
        [.completed 0 (1 / 1000), .completed 0 (1 / 1000), .completed 0 (1 / 1000)]
        "t" "t2" "tg" "op").toOption.map (fun a => a.summary.delta_percent)
      = some EFloat.posInf := by
  have hcol : collectLatencies
      [.completed 0 0, .completed 0 0, .completed 0 0] = [0, 0, 0] := by
    norm_num [collectLatencies, List.filterMap_cons, measure_latency]
  have hcol2 : collectLatencies
      [.completed 0 (1 / 1000), .completed 0 (1 / 1000), .completed 0 (1 / 1000)]
      = [1, 1, 1] := by
    norm_num [collectLatencies, List.filterMap_cons, measure_latency]
  have hdelta : (analyze_results [0, 0, 0] [1, 1, 1] "t2" "tg" "op").summary.delta_percent
      = EFloat.posInf := by
    norm_num [analyze_results, seriesMean, npDiv, round2E]
  simp only [run_and_analyze, run_benchmark, hcol, hcol2]
  norm_num [Except.toOption, hdelta]

/-- C2 amended: when the classic (baseline) mean is exactly 0,
`analyze_results` does not fail; it returns a summary whose
`delta_percent` is `+inf` when the hybrid mean is positive, `-inf` when it
is negative, and NaN when it is also zero — the numpy division-by-zero
values the claim says are avoided. -/
theorem C2_degenerate_baseline_amended :
    ∀ (classic hybrid : List ℚ) (now target op : String),
      seriesMean classic = 0 →
      (analyze_results classic hybrid now target op).summary.delta_percent
        = if 0 < seriesMean hybrid then EFloat.posInf
          else if seriesMean hybrid < 0 then EFloat.negInf
          else EFloat.nan := by
  intro classic hybrid now target op h
  have hd : (analyze_results classic hybrid now target op).summary.delta_percent
      = round2E (npDiv (100 * (seriesMean hybrid - seriesMean classic))
          (seriesMean classic)) := rfl
  rw [hd, h, sub_zero]
  rcases lt_trichotomy (seriesMean hybrid) 0 with hlt | heq | hgt
  · rw [npDiv_zero_neg (by linarith), if_neg (asymm hlt), if_pos hlt]
    rfl
  · rw [heq, mul_zero, npDiv_zero_zero]
    norm_num [round2E]
  · rw [npDiv_zero_pos (by linarith), if_pos hgt]
    rfl

/-- C2 amended witness: at classic latencies `[0, 0]` (mean 0) and hybrid
latencies `[4, 2]` (mean 3) the reported delta is `+inf`. -/
theorem C2_degenerate_baseline_amended_witness :
    (analyze_results [0, 0] [4, 2] "v" "tg" "op").summary.delta_percent
      = if 0 < seriesMean [4, 2] then EFloat.posInf
        else if seriesMean [4, 2] < 0 then EFloat.negInf
        else EFloat.nan :=
  C2_degenerate_baseline_amended [0, 0] [4, 2] "v" "tg" "op" (by norm_num [seriesMean])

/-- C3: the statistical reduction is deterministic in everything the caller
controls: the summary block and the describe table of `analyze_results`
depend only on the two latency columns, not on the `datetime.now()` reading
taken during the call (which enters only the metadata block).  Two calls on
identical sample data therefore yield identical comparison statistics. -/
theorem C3_reduce_deterministic :
    ∀ (classic hybrid : List ℚ) (t1 t2 target op : String),
      (analyze_results classic hybrid t1 target op).summary
          = (analyze_results classic hybrid t2 target op).summary
        ∧ (analyze_results classic hybrid t1 target op).statistics
          = (analyze_results classic hybrid t2 target op).statistics := by
  intro classic hybrid t1 t2 target op
  exact ⟨rfl, rfl⟩

end TLSBench

namespace TLSBench

/-- C4: after both passes, `run_benchmark` truncates both latency columns to
the same length, the minimum of the two successful counts, and raises the
insufficient-samples RuntimeError exactly when that minimum is zero. -/
theorem C4_truncation_common_length :
    ∀ (cOut hOut : List InvokeOutcome) (now : String),
      (min (collectLatencies cOut).length (collectLatencies hOut).length = 0 →
        run_benchmark cOut hOut now = .error .insufficientSamples)
      ∧ (∀ df, run_benchmark cOut hOut now = .ok df →
          df.classic_ms.length
              = min (collectLatencies cOut).length (collectLatencies hOut).length
            ∧ df.hybrid_ms.length
              = min (collectLatencies cOut).length (collectLatencies hOut).length) := by
  intro cOut hOut now
  constructor
  · intro h
    simp [run_benchmark, h]
  · intro df hdf
    by_cases h : min (collectLatencies cOut).length (collectLatencies hOut).length = 0
    · simp [run_benchmark, h] at hdf
    · simp only [run_benchmark, if_neg h, Except.ok.injEq] at hdf
      rw [← hdf]
      constructor <;> simp [List.length_take]

/-- C4 witness: with one successful classic attempt and two successful
hybrid attempts the DataFrame columns both have length `min 1 2 = 1`; with
a failing classic pass the run raises the insufficient-samples error. -/
theorem C4_truncation_common_length_witness :
    ((run_benchmark [.completed 0 (3 / 1000)]
        [.completed 0 (4 / 1000), .completed 0 (5 / 1000)] "w")
      = .ok { classic_ms := [3], hybrid_ms := [4], timestamp := ["w"] })
    ∧ run_benchmark [.timeoutExpired] [.completed 0 (4 / 1000)] "w"
        = .error .insufficientSamples := by
  have hok : run_benchmark [.completed 0 (3 / 1000)]
      [.completed 0 (4 / 1000), .completed 0 (5 / 1000)] "w"
      = .ok { classic_ms := [3], hybrid_ms := [4], timestamp := ["w"] } := by
    have h1 : collectLatencies [.completed 0 (3 / 1000)] = [3] := by
      norm_num [collectLatencies, List.filterMap_cons, measure_latency]
    have h2 : collectLatencies [.completed 0 (4 / 1000), .completed 0 (5 / 1000)]
        = [4, 5] := by
      norm_num [collectLatencies, List.filterMap_cons, measure_latency]
    simp [run_benchmark, h1, h2]
  refine ⟨hok, ?_⟩
  exact (C4_truncation_common_length [.timeoutExpired] [.completed 0 (4 / 1000)] "w").1
    (by norm_num [collectLatencies, List.filterMap_cons, measure_latency])

/-- C5 counterexample: the per-pass sampling loop has no emptiness check and
cannot fail; on a pass whose two attempts both fail it silently returns the
empty latency list (the run-level RuntimeError comes only later, from
`run_benchmark`), where the claim demands that the pass itself fail with
`InsufficientSamples` and never return an empty sample set. -/
theorem C5_empty_pass_counterexample :
    collectLatencies [InvokeOutcome.timeoutExpired, InvokeOutcome.calledProcessError]
      = [] := rfl

/-- C5 amended: a pass in which every attempt fails returns an empty latency
list to `run_benchmark`, which then (after the other pass has also executed)
raises the insufficient-samples RuntimeError before any result is produced —
the emptiness check lives at run level, not inside the pass. -/
theorem C5_insufficient_at_run_level :
    ∀ (cOut hOut : List InvokeOutcome) (now : String),
      collectLatencies cOut = [] ∨ collectLatencies hOut = [] →
      run_benchmark cOut hOut now = .error .insufficientSamples := by
  intro cOut hOut now h
  rcases h with h | h <;> simp [run_benchmark, h]

/-- C5 amended witness: a run whose classic pass has a single, failing
attempt raises the insufficient-samples error. -/
theorem C5_insufficient_at_run_level_witness :
    run_benchmark [InvokeOutcome.timeoutExpired] [InvokeOutcome.completed 0 1] "w"
      = .error .insufficientSamples :=
  C5_insufficient_at_run_level [.timeoutExpired] [.completed 0 1] "w" (Or.inl rfl)

/-- C6: a single attempt yields `None` (no elapsed value) on timeout and on
non-success process exit; any latency it does return is nonnegative; and a
negative measurement is suppressed to `None`, never surfaced as data.
(Latencies are differences of finite `perf_counter` readings, modelled
exactly in the rationals, where non-finite values cannot arise.) -/
theorem C6_attempt_failure_handling :
    (measure_latency .timeoutExpired = none)
    ∧ (measure_latency .calledProcessError = none)
    ∧ (∀ (o : InvokeOutcome) (l : ℚ), measure_latency o = some l → 0 ≤ l)
    ∧ (∀ startTime endTime : ℚ, (endTime - startTime) * 1000 < 0 →
        measure_latency (.completed startTime endTime) = none) := by
  refine ⟨rfl, rfl, ?_, ?_⟩
  · intro o l h
    cases o with
    | completed s e =>
        simp only [measure_latency] at h
        split at h
        · next hc =>
            injection h with h2
            exact h2 ▸ hc
        · exact absurd h (by simp)
    | calledProcessError => exact absurd h (by simp [measure_latency])
    | timeoutExpired => exact absurd h (by simp [measure_latency])
  · intro s e hneg
    simp only [measure_latency]
    rw [if_neg (not_le.mpr hneg)]

/-- C6 witness: a 5 ms success is nonnegative, and an attempt whose timer
readings run backwards (latency -1000 ms) is reported as `None`. -/
theorem C6_attempt_failure_handling_witness :
    (0 : ℚ) ≤ 5 ∧ measure_latency (.completed 1 0) = none :=
  ⟨C6_attempt_failure_handling.2.2.1 (.completed 0 (5 / 1000)) 5
      (by norm_num [measure_latency]),
   C6_attempt_failure_handling.2.2.2 1 0 (by norm_num)⟩

/-- Each element of a list is either kept by `filterMap` or counted by the
`isNone` predicate: the input length is the sum of the two. -/
lemma length_eq_filterMap_add_countP {α β : Type} (g : α → Option β)
    (l : List α) :
    l.length = (l.filterMap g).length + l.countP (fun a => (g a).isNone) := by
  induction l with
  | nil => simp
  | cons x t ih =>
      cases hx : g x <;>
        simp [List.filterMap_cons, hx, List.countP_cons, ih] <;> omega

/-- C7: a pass of `iterations` iterations issues exactly one attempt per
iteration (no retry), and the counts balance: the iteration count equals the
number of collected latencies plus the number of failed attempts.  In the
concrete 5-iteration pass with failures at iterations 2 and 4, the three
successful latencies 10, 12 and 11 are collected and the failure count is 2. -/
theorem C7_attempt_accounting :
    (∀ (iterations : ℕ) (attemptOutcome : ℕ → InvokeOutcome),
        ((List.range iterations).map attemptOutcome).length = iterations
        ∧ iterations
            = (collectLatencies ((List.range iterations).map attemptOutcome)).length
              + ((List.range iterations).map attemptOutcome).countP
                  (fun o => (measure_latency o).isNone))
    ∧ collectLatencies
        [.completed 0 (1 / 100), .timeoutExpired, .completed 0 (12 / 1000),
          .calledProcessError, .completed 0 (11 / 1000)] = [10, 12, 11]
    ∧ ([.completed 0 (1 / 100), .timeoutExpired, .completed 0 (12 / 1000),
          .calledProcessError, .completed 0 (11 / 1000)] : List InvokeOutcome).countP
          (fun o => (measure_latency o).isNone) = 2 := by
  refine ⟨fun iterations f => ⟨by simp, ?_⟩, ?_, ?_⟩
  · simpa [collectLatencies]
      using length_eq_filterMap_add_countP measure_latency ((List.range iterations).map f)
  · norm_num [collectLatencies, List.filterMap_cons, measure_latency]
  · norm_num [List.countP_cons, measure_latency]

end TLSBench

namespace TLSBench

/-- C8: the two passes are strictly sequential with the cooldown as a hard
barrier: in the event order of `run_benchmark`, every classic (baseline)
attempt sits before position `iterations`, the `time.sleep(2)` cooldown sits
exactly at position `iterations`, and every hybrid attempt sits after it —
so no hybrid attempt is issued before every baseline attempt and the
cooldown have completed, and attempts of the two passes never interleave. -/
theorem C8_strict_pass_ordering :
    ∀ (iterations k1 k2 i j : ℕ),
      (run_benchmark_trace iterations)[k1]? = some (.classicAttempt i) →
      (run_benchmark_trace iterations)[k2]? = some (.hybridAttempt j) →
      k1 < iterations
        ∧ (run_benchmark_trace iterations)[iterations]? = some .cooldownSleep
        ∧ iterations < k2 := by
  intro N k1 k2 i j h1 h2
  have hcool : (run_benchmark_trace N)[N]? = some RunEvent.cooldownSleep := by
    rw [run_benchmark_trace, List.getElem?_append]
    simp
  have hk1 : k1 < N := by
    by_contra hk
    push_neg at hk
    rcases Nat.exists_eq_add_of_le hk with ⟨m, rfl⟩
    rw [run_benchmark_trace, List.getElem?_append, if_neg (by simp)] at h1
    rcases m with _ | m
    · simp at h1
    · simp only [List.length_map, List.length_range, Nat.add_sub_cancel_left,
        List.getElem?_cons_succ, List.getElem?_map] at h1
      rcases hr : (List.range N)[m]? with _ | v <;> rw [hr] at h1 <;> simp at h1
  refine ⟨hk1, hcool, ?_⟩
  by_contra hk
  push_neg at hk
  rcases Nat.lt_or_ge k2 N with hlt | hge
  · rw [run_benchmark_trace, List.getElem?_append, if_pos (by simpa using hlt),
      List.getElem?_map, List.getElem?_range hlt] at h2
    simp at h2
  · have hEq : k2 = N := Nat.le_antisymm hk hge
    subst hEq
    rw [hcool] at h2
    simp at h2

/-- C8 witness: with one iteration per pass the trace is
`[classicAttempt 0, cooldownSleep, hybridAttempt 0]`; the classic attempt at
position 0 precedes the cooldown at position 1, which precedes the hybrid
attempt at position 2. -/
theorem C8_strict_pass_ordering_witness :
    0 < 1 ∧ (run_benchmark_trace 1)[1]? = some RunEvent.cooldownSleep ∧ 1 < 2 :=
  C8_strict_pass_ordering 1 0 2 0 0 (by decide) (by decide)

end TLSBench

namespace TLSBench

/-- C9 counterexample: the result of a run does not report the loss rate.
Two runs of 4 iterations per pass — run A with one classic and one hybrid
timeout (2 failed attempts in total), run B with four classic successes and
one hybrid process error (1 failed attempt) — produce byte-identical
results: the failed/attempted counts are not recoverable from the output,
which reports only the surviving truncated samples and their statistics. -/
theorem C9_loss_rate_counterexample :
    run_and_analyze
        [.completed 0 (1 / 100), .completed 0 (12 / 1000), .completed 0 (11 / 1000),
          .timeoutExpired]
        [.completed 0 (15 / 1000), .completed 0 (16 / 1000), .completed 0 (14 / 1000),
          .timeoutExpired] "t" "t2" "tg" "op"
      = run_and_analyze
          [.completed 0 (1 / 100), .completed 0 (12 / 1000), .completed 0 (11 / 1000),
            .completed 0 (99 / 1000)]
          [.completed 0 (15 / 1000), .completed 0 (16 / 1000), .completed 0 (14 / 1000),
            .calledProcessError] "t" "t2" "tg" "op"
    ∧ ([.completed 0 (1 / 100), .completed 0 (12 / 1000), .completed 0 (11 / 1000),
          .timeoutExpired, .completed 0 (15 / 1000), .completed 0 (16 / 1000),
          .completed 0 (14 / 1000), .timeoutExpired] : List InvokeOutcome).countP
          (fun o => (measure_latency o).isNone) = 2
    ∧ ([.completed 0 (1 / 100), .completed 0 (12 / 1000), .completed 0 (11 / 1000),
          .completed 0 (99 / 1000), .completed 0 (15 / 1000), .completed 0 (16 / 1000),
          .completed 0 (14 / 1000), .calledProcessError] : List InvokeOutcome).countP
          (fun o => (measure_latency o).isNone) = 1 := by
  have hA1 : collectLatencies
      [.completed 0 (1 / 100), .completed 0 (12 / 1000), .completed 0 (11 / 1000),
        .timeoutExpired] = [10, 12, 11] := by
    norm_num [collectLatencies, List.filterMap_cons, measure_latency]
  have hA2 : collectLatencies
      [.completed 0 (15 / 1000), .completed 0 (16 / 1000), .completed 0 (14 / 1000),
        .timeoutExpired] = [15, 16, 14] := by
    norm_num [collectLatencies, List.filterMap_cons, measure_latency]
  have hB1 : collectLatencies
      [.completed 0 (1 / 100), .completed 0 (12 / 1000), .completed 0 (11 / 1000),
        .completed 0 (99 / 1000)] = [10, 12, 11, 99] := by
    norm_num [collectLatencies, List.filterMap_cons, measure_latency]
  have hB2 : collectLatencies
      [.completed 0 (15 / 1000), .completed 0 (16 / 1000), .completed 0 (14 / 1000),
        .calledProcessError] = [15, 16, 14] := by
    norm_num [collectLatencies, List.filterMap_cons, measure_latency]
  have hrunA : run_benchmark
      [.completed 0 (1 / 100), .completed 0 (12 / 1000), .completed 0 (11 / 1000),
        .timeoutExpired]
      [.completed 0 (15 / 1000), .completed 0 (16 / 1000), .completed 0 (14 / 1000),
        .timeoutExpired] "t"
      = .ok ⟨[10, 12, 11], [15, 16, 14], List.replicate 3 "t"⟩ := by
    unfold run_benchmark
    rw [hA1, hA2]
    exact rfl
  have hrunB : run_benchmark
      [.completed 0 (1 / 100), .completed 0 (12 / 1000), .completed 0 (11 / 1000),
        .completed 0 (99 / 1000)]
      [.completed 0 (15 / 1000), .completed 0 (16 / 1000), .completed 0 (14 / 1000),
        .calledProcessError] "t"
      = .ok ⟨[10, 12, 11], [15, 16, 14], List.replicate 3 "t"⟩ := by
    unfold run_benchmark
    rw [hB1, hB2]
    exact rfl
  refine ⟨?_, ?_, ?_⟩
  · unfold run_and_analyze
    rw [hrunA, hrunB]
  · norm_num [List.countP_cons, measure_latency]
  · norm_num [List.countP_cons, measure_latency]

/-- C9 amended: the produced result is a function of the surviving latency
sequences alone: two runs whose passes collect the same successful
latencies yield identical results regardless of how many attempts failed
along the way.  The output therefore reports the surviving samples and
their statistics (including `sample_size`, the truncated survivor count)
but not the failed/attempted counts, which appear only in log messages. -/
theorem C9_result_reports_only_survivors :
    ∀ (cOut hOut cOut2 hOut2 : List InvokeOutcome) (now now2 target op : String),
      collectLatencies cOut = collectLatencies cOut2 →
      collectLatencies hOut = collectLatencies hOut2 →
      run_and_analyze cOut hOut now now2 target op
        = run_and_analyze cOut2 hOut2 now now2 target op := by
  intro cOut hOut cOut2 hOut2 now now2 target op h1 h2
  simp only [run_and_analyze, run_benchmark, h1, h2]

/-- C9 amended witness: a clean one-attempt run and a run with an extra
timeout per pass produce the same result. -/
theorem C9_result_reports_only_survivors_witness :
    run_and_analyze [.completed 0 (1 / 1000)] [.completed 0 (2 / 1000)]
        "a" "b" "c" "d"
      = run_and_analyze [.completed 0 (1 / 1000), .timeoutExpired]
          [.timeoutExpired, .completed 0 (2 / 1000)] "a" "b" "c" "d" :=
  C9_result_reports_only_survivors
    [.completed 0 (1 / 1000)] [.completed 0 (2 / 1000)]
    [.completed 0 (1 / 1000), .timeoutExpired]
    [.timeoutExpired, .completed 0 (2 / 1000)] "a" "b" "c" "d"
    (by norm_num [collectLatencies, List.filterMap_cons, measure_latency])
    (by norm_num [collectLatencies, List.filterMap_cons, measure_latency])

/-- C10: truncation keeps a prefix in arrival order: the DataFrame columns
handed to `analyze_results` are exactly the first `min_len` successful
latencies of each pass (`[:min_len]` slicing), so each truncated column is
an initial segment of the corresponding full success sequence and no later
sample displaces an earlier one. -/
theorem C10_truncation_keeps_first_samples :
    ∀ (cOut hOut : List InvokeOutcome) (now : String) (df : BenchmarkFrame),
      run_benchmark cOut hOut now = .ok df →
      df.classic_ms
          = (collectLatencies cOut).take
              (min (collectLatencies cOut).length (collectLatencies hOut).length)
        ∧ df.hybrid_ms
          = (collectLatencies hOut).take
              (min (collectLatencies cOut).length (collectLatencies hOut).length)
        ∧ (∃ rest, collectLatencies cOut = df.classic_ms ++ rest)
        ∧ (∃ rest, collectLatencies hOut = df.hybrid_ms ++ rest) := by
  intro cOut hOut now df hdf
  by_cases h : min (collectLatencies cOut).length (collectLatencies hOut).length = 0
  · simp [run_benchmark, h] at hdf
  · simp only [run_benchmark, if_neg h, Except.ok.injEq] at hdf
    subst hdf
    exact ⟨rfl, rfl,
      ⟨_, ( List.take_append_drop _ _).symm⟩,
      ⟨_, ( List.take_append_drop _ _).symm⟩⟩

/-- C10 witness: with classic successes `[1, 2]` and hybrid successes `[3]`
the truncated columns are `[1]` and `[3]`: the first `min 2 1 = 1` samples
of each pass in arrival order. -/
theorem C10_truncation_keeps_first_samples_witness :
    (BenchmarkFrame.mk [1] [3] ["x"]).classic_ms
        = (collectLatencies [.completed 0 (1 / 1000), .completed 0 (2 / 1000)]).take
            (min (collectLatencies
                    [.completed 0 (1 / 1000), .completed 0 (2 / 1000)]).length
              (collectLatencies [.completed 0 (3 / 1000)]).length)
      ∧ (BenchmarkFrame.mk [1] [3] ["x"]).hybrid_ms
        = (collectLatencies [.completed 0 (3 / 1000)]).take
            (min (collectLatencies
                    [.completed 0 (1 / 1000), .completed 0 (2 / 1000)]).length
              (collectLatencies [.completed 0 (3 / 1000)]).length)
      ∧ (∃ rest, collectLatencies [.completed 0 (1 / 1000), .completed 0 (2 / 1000)]
          = (BenchmarkFrame.mk [1] [3] ["x"]).classic_ms ++ rest)
      ∧ (∃ rest, collectLatencies [.completed 0 (3 / 1000)]
          = (BenchmarkFrame.mk [1] [3] ["x"]).hybrid_ms ++ rest) := by
  have h1 : collectLatencies [.completed 0 (1 / 1000), .completed 0 (2 / 1000)]
      = [1, 2] := by
    norm_num [collectLatencies, List.filterMap_cons, measure_latency]
  have h2 : collectLatencies [.completed 0 (3 / 1000)] = [3] := by
    norm_num [collectLatencies, List.filterMap_cons, measure_latency]
  exact C10_truncation_keeps_first_samples
    [.completed 0 (1 / 1000), .completed 0 (2 / 1000)] [.completed 0 (3 / 1000)]
    "x" (BenchmarkFrame.mk [1] [3] ["x"])
    (by unfold run_benchmark; rw [h1, h2]; exact rfl)

end TLSBench
